import Mathlib

/-!
Verification development for the luma_scrape repository.

The repository has three Python scripts:
  * scrape_luma_grid_status.py    — grid snapshot scraper (requests + BeautifulSoup)
  * scrape_service_status.py      — outage-status snapshot scraper (Playwright) with
                                    the snapshot differ is_newer_last_update
  * scrape_notable_outages.py     — notable-outages table scraper (Selenium) with the
                                    md5-based dedup key and the upsert coordinator

Below, the extraction / normalization / dedup / differ / upsert core of those
scripts is shallowly embedded: pure Lean functions over explicit inputs
(parsed-document trees, table rows, the store contents), with Option/Except
modelling Python exceptions.  Library behaviour the code relies on
(str.strip, str.replace, int(), datetime.strptime for the two fixed formats,
hashlib.md5, UTF-8 encoding) is modelled faithfully from those libraries'
documented semantics, restricted to ASCII-relevant behaviour where noted.
-/

/-! ### String helpers

`strip` models Python `str.strip()` with no arguments, JavaScript
`String.prototype.trim()` and BeautifulSoup `get_text(strip=True)` on a plain
text node: leading and trailing whitespace removed.  (The exact whitespace
sets of Python/JS differ outside ASCII; nothing below depends on that.) -/

def strip (s : String) : String :=
  ⟨((s.data.dropWhile Char.isWhitespace).reverse.dropWhile Char.isWhitespace).reverse⟩

def lowerStr (s : String) : String :=
  ⟨s.data.map Char.toLower⟩

/-- `stripPrefixQ pat cs` returns the remainder of `cs` after the literal
pattern `pat`, when `pat` is a prefix of `cs`. -/
def stripPrefixQ : List Char → List Char → Option (List Char)
  | [], cs => some cs
  | _ :: _, [] => none
  | p :: ps, c :: cs => if c = p then stripPrefixQ ps cs else none

/-- Left-to-right, non-overlapping replacement of a (non-empty) pattern,
modelling Python `str.replace(pat, repl)` and, for single-character patterns,
the JavaScript `replace` used for slugs.  The fuel is the input length, which
bounds the number of recursion steps. -/
def replaceAllFuel : Nat → List Char → List Char → List Char → List Char
  | 0, _, _, cs => cs
  | fuel + 1, pat, repl, cs =>
    match stripPrefixQ pat cs with
    | some rest => repl ++ replaceAllFuel fuel pat repl rest
    | none =>
      match cs with
      | [] => []
      | c :: cs2 => c :: replaceAllFuel fuel pat repl cs2

def pyReplace (s pat repl : String) : String :=
  ⟨replaceAllFuel s.data.length pat.data repl.data s.data⟩

/-! ### Python `int()` on strings

`int(s)` strips surrounding whitespace, accepts an optional sign, then a
non-empty digit run in which single underscores may separate digits; anything
else raises `ValueError` (modelled as `none`).  Restricted to ASCII digits and
whitespace. -/

def digitVal (c : Char) : Nat := c.toNat - 48

def pyDigitsRest : List Char → Nat → Option Nat
  | [], acc => some acc
  | c :: cs, acc =>
    if c.isDigit then pyDigitsRest cs (acc * 10 + digitVal c)
    else if c = '_' then
      match cs with
      | c2 :: cs2 => if c2.isDigit then pyDigitsRest cs2 (acc * 10 + digitVal c2) else none
      | [] => none
    else none

def pyDigits : List Char → Option Nat
  | [] => none
  | c :: cs => if c.isDigit then pyDigitsRest cs (digitVal c) else none

def pyInt (s : String) : Option Int :=
  match (strip s).data with
  | '+' :: rest => (pyDigits rest).map (fun n => (n : Int))
  | '-' :: rest => (pyDigits rest).map (fun n => -(n : Int))
  | cs => (pyDigits cs).map (fun n => (n : Int))

/-! ### `datetime` model

Python `datetime` values compare lexicographically by
(year, month, day, hour, minute, …); the scrapers never produce seconds or
finer, so those components are omitted. -/

structure PyDateTime where
  year : Nat
  month : Nat
  day : Nat
  hour : Nat
  minute : Nat
deriving DecidableEq, Repr

/-- Python `datetime` comparison `a < b` (lexicographic). -/
def dtLtB (a b : PyDateTime) : Bool :=
  a.year < b.year ||
    (a.year = b.year &&
      (a.month < b.month ||
        (a.month = b.month &&
          (a.day < b.day ||
            (a.day = b.day &&
              (a.hour < b.hour || (a.hour = b.hour && a.minute < b.minute)))))))

def isLeapYear (y : Nat) : Bool :=
  y % 4 = 0 && (y % 100 ≠ 0 || y % 400 = 0)

def daysInMonth (y m : Nat) : Nat :=
  if m = 2 then (if isLeapYear y then 29 else 28)
  else if m = 4 || m = 6 || m = 9 || m = 11 then 30
  else 31

/-! ### `strptime` for the two fixed formats

CPython `strptime` compiles the format into an anchored regex that must
consume the whole input: `%m`, `%d`, `%I`, `%H`, `%M` match one or two ASCII
digits (value-restricted), `%Y` exactly four digits, `%B` a full English month
name case-insensitively, `%p` AM/PM case-insensitively, a literal space one or
more whitespace characters, and other literals themselves; the resulting
`datetime` constructor further checks the day against the month length.
Because every numeric field here is followed by a non-digit literal, taking
digits greedily (at most two) and checking the value range afterwards accepts
exactly the same strings as the value-restricted regex alternations. -/

def take2Digits : List Char → Option (Nat × List Char)
  | [] => none
  | c1 :: rest =>
    if c1.isDigit then
      match rest with
      | c2 :: rest2 =>
        if c2.isDigit then some (digitVal c1 * 10 + digitVal c2, rest2)
        else some (digitVal c1, rest)
      | [] => some (digitVal c1, [])
    else none

def take4Digits : List Char → Option (Nat × List Char)
  | c1 :: c2 :: c3 :: c4 :: rest =>
    if c1.isDigit && c2.isDigit && c3.isDigit && c4.isDigit then
      some (((digitVal c1 * 10 + digitVal c2) * 10 + digitVal c3) * 10 + digitVal c4, rest)
    else none
  | _ => none

def expectChar (c : Char) : List Char → Option (List Char)
  | [] => none
  | x :: rest => if x = c then some rest else none

def skipWsMore : List Char → List Char
  | [] => []
  | x :: rest => if x.isWhitespace then skipWsMore rest else x :: rest

/-- A literal space in a strptime format: one or more whitespace characters. -/
def skipWs1 : List Char → Option (List Char)
  | [] => none
  | x :: rest => if x.isWhitespace then some (skipWsMore rest) else none

/-- `%p`: `AM`/`PM`, case-insensitively; `true` means PM. -/
def takeAmPm : List Char → Option (Bool × List Char)
  | c1 :: c2 :: rest =>
    if (c1.toLower = 'a') && (c2.toLower = 'm') then some (false, rest)
    else if (c1.toLower = 'p') && (c2.toLower = 'm') then some (true, rest)
    else none
  | _ => none

def monthTable : List (Nat × String) :=
  [(1, "january"), (2, "february"), (3, "march"), (4, "april"), (5, "may"),
   (6, "june"), (7, "july"), (8, "august"), (9, "september"), (10, "october"),
   (11, "november"), (12, "december")]

/-- Case-insensitive literal-prefix match: the pattern is lowercase. -/
def stripPrefixCI : List Char → List Char → Option (List Char)
  | [], cs => some cs
  | _ :: _, [] => none
  | p :: ps, c :: cs => if c.toLower = p then stripPrefixCI ps cs else none

/-- `%B`: a full English month name, case-insensitively.  No month name is a
prefix of another, so first-match is unambiguous. -/
def takeMonthName (cs : List Char) : Option (Nat × List Char) :=
  go monthTable
where
  go : List (Nat × String) → Option (Nat × List Char)
    | [] => none
    | (i, name) :: rest =>
      match stripPrefixCI name.data cs with
      | some r => some (i, r)
      | none => go rest

/-- 12-hour clock plus AM/PM to the 24-hour hour, as strptime computes it. -/
def to24 (hI : Nat) (pm : Bool) : Nat :=
  if pm then (if hI = 12 then 12 else hI + 12)
  else (if hI = 12 then 0 else hI)

/-- The value ranges of `%m`/`%d`/`%I`/`%M` plus the `datetime` constructor's
day-of-month check, and the requirement that the whole input was consumed. -/
def mdyhmValid (rest : List Char) (m d y hI mi : Nat) : Bool :=
  if rest = [] ∧ 1 ≤ m ∧ m ≤ 12 ∧ 1 ≤ d ∧ d ≤ daysInMonth y m ∧
      1 ≤ y ∧ 1 ≤ hI ∧ hI ≤ 12 ∧ mi ≤ 59 then true else false

/-- `datetime.strptime(s, "%m/%d/%Y %I:%M %p")`; `none` models the raised
`ValueError`. -/
def strptime_mdyhmp (s : String) : Option PyDateTime := do
  let cs := s.data
  let (m, cs) ← take2Digits cs
  let cs ← expectChar '/' cs
  let (d, cs) ← take2Digits cs
  let cs ← expectChar '/' cs
  let (y, cs) ← take4Digits cs
  let cs ← skipWs1 cs
  let (hI, cs) ← take2Digits cs
  let cs ← expectChar ':' cs
  let (mi, cs) ← take2Digits cs
  let cs ← skipWs1 cs
  let (pm, cs) ← takeAmPm cs
  if mdyhmValid cs m d y hI mi then
    some ⟨y, m, d, to24 hI pm, mi⟩
  else none

/-- The apostrophe character, written by code point to keep source literals
simple. -/
def apostrophe : Char := Char.ofNat 39

/-- The `%d`/`%H`/`%M` value ranges, the day-of-month check against the
default year 1900, and full-input consumption. -/
def bdhmValid (rest : List Char) (m d h mi : Nat) : Bool :=
  if rest = [] ∧ 1 ≤ d ∧ d ≤ daysInMonth 1900 m ∧ h ≤ 23 ∧ mi ≤ 59 then true else false

/-- `datetime.strptime(s, '%B %d %H:%M\'')` — note the trailing literal
apostrophe in the source format string.  The default year is 1900 (so a
February 29 never parses: 1900 is not a leap year); `none` models the raised
`ValueError`. -/
def strptime_bdhm (s : String) : Option PyDateTime := do
  let cs := s.data
  let (m, cs) ← takeMonthName cs
  let cs ← skipWs1 cs
  let (d, cs) ← take2Digits cs
  let cs ← skipWs1 cs
  let (h, cs) ← take2Digits cs
  let cs ← expectChar ':' cs
  let (mi, cs) ← take2Digits cs
  let cs ← expectChar apostrophe cs
  if bdhmValid cs m d h mi then
    some ⟨1900, m, d, h, mi⟩
  else none

/-- `dt.replace(year=y)`.  The `datetime.replace` re-validation can only fail
for February 29 into a non-leap year, and `strptime_bdhm` never produces a
February 29 (its default year 1900 is not leap), so the plain field update is
exact on every value this code feeds it. -/
def pyReplaceYear (y : Nat) (d : PyDateTime) : PyDateTime := { d with year := y }

/-! ### MD5 (RFC 1321), as used by `hashlib.md5(...).hexdigest()`

Bytes are `Nat`s below 256; 32-bit words are `Nat`s reduced mod `2^32`. -/

def u32 (n : Nat) : Nat := n % 4294967296

def not32 (x : Nat) : Nat := x ^^^ 4294967295

def rotl32 (x s : Nat) : Nat :=
  u32 (u32 x <<< s) ||| (u32 x >>> (32 - s))

/-- The 64 sine-derived constants `K[i] = floor(2^32 * |sin(i+1)|)`. -/
def md5K : List Nat :=
  [0xd76aa478, 0xe8c7b756, 0x242070db, 0xc1bdceee,
   0xf57c0faf, 0x4787c62a, 0xa8304613, 0xfd469501,
   0x698098d8, 0x8b44f7af, 0xffff5bb1, 0x895cd7be,
   0x6b901122, 0xfd987193, 0xa679438e, 0x49b40821,
   0xf61e2562, 0xc040b340, 0x265e5a51, 0xe9b6c7aa,
   0xd62f105d, 0x02441453, 0xd8a1e681, 0xe7d3fbc8,
   0x21e1cde6, 0xc33707d6, 0xf4d50d87, 0x455a14ed,
   0xa9e3e905, 0xfcefa3f8, 0x676f02d9, 0x8d2a4c8a,
   0xfffa3942, 0x8771f681, 0x6d9d6122, 0xfde5380c,
   0xa4beea44, 0x4bdecfa9, 0xf6bb4b60, 0xbebfbc70,
   0x289b7ec6, 0xeaa127fa, 0xd4ef3085, 0x04881d05,
   0xd9d4d039, 0xe6db99e5, 0x1fa27cf8, 0xc4ac5665,
   0xf4292244, 0x432aff97, 0xab9423a7, 0xfc93a039,
   0x655b59c3, 0x8f0ccc92, 0xffeff47d, 0x85845dd1,
   0x6fa87e4f, 0xfe2ce6e0, 0xa3014314, 0x4e0811a1,
   0xf7537e82, 0xbd3af235, 0x2ad7d2bb, 0xeb86d391]

/-- The per-round left-rotation amounts. -/
def md5S : List Nat :=
  [7, 12, 17, 22, 7, 12, 17, 22, 7, 12, 17, 22, 7, 12, 17, 22,
   5, 9, 14, 20, 5, 9, 14, 20, 5, 9, 14, 20, 5, 9, 14, 20,
   4, 11, 16, 23, 4, 11, 16, 23, 4, 11, 16, 23, 4, 11, 16, 23,
   6, 10, 15, 21, 6, 10, 15, 21, 6, 10, 15, 21, 6, 10, 15, 21]

structure MD5State where
  a : Nat
  b : Nat
  c : Nat
  d : Nat
deriving DecidableEq, Repr

def md5InitState : MD5State :=
  ⟨0x67452301, 0xefcdab89, 0x98badcfe, 0x10325476⟩

/-- One 512-bit chunk (given as its 16 little-endian words). -/
def md5ProcessChunk (st : MD5State) (m : List Nat) : MD5State :=
  let step := fun (s : MD5State) (i : Nat) =>
    let fg : Nat × Nat :=
      if i < 16 then ((s.b &&& s.c) ||| (not32 s.b &&& s.d), i)
      else if i < 32 then ((s.d &&& s.b) ||| (not32 s.d &&& s.c), (5 * i + 1) % 16)
      else if i < 48 then (s.b ^^^ s.c ^^^ s.d, (3 * i + 5) % 16)
      else (s.c ^^^ (s.b ||| not32 s.d), (7 * i) % 16)
    let tmp := u32 (s.a + fg.1 + md5K.getD i 0 + m.getD fg.2 0)
    ⟨s.d, u32 (s.b + rotl32 tmp (md5S.getD i 0)), s.b, s.c⟩
  let r := (List.range 64).foldl step st
  ⟨u32 (st.a + r.a), u32 (st.b + r.b), u32 (st.c + r.c), u32 (st.d + r.d)⟩

/-- Merkle–Damgård padding: a 0x80 byte, zeros to 56 mod 64, then the bit
length as eight little-endian bytes. -/
def md5Pad (msg : List Nat) : List Nat :=
  let len := msg.length
  let zeros := (56 + 64 - (len + 1) % 64) % 64
  msg ++ [128] ++ List.replicate zeros 0 ++
    ((List.range 8).map fun i => ((len * 8) >>> (8 * i)) % 256)

/-- Groups of four bytes to little-endian 32-bit words. -/
def bytesToWords : List Nat → List Nat
  | b0 :: b1 :: b2 :: b3 :: rest =>
    (b0 + 256 * b1 + 65536 * b2 + 16777216 * b3) :: bytesToWords rest
  | _ => []

/-- Process `n` chunks of 64 bytes. -/
def md5Loop : Nat → MD5State → List Nat → MD5State
  | 0, st, _ => st
  | n + 1, st, bytes =>
    md5Loop n (md5ProcessChunk st (bytesToWords (bytes.take 64))) (bytes.drop 64)

def md5Digest (msg : List Nat) : MD5State :=
  let padded := md5Pad msg
  md5Loop (padded.length / 64) md5InitState padded

def wordLEBytes (w : Nat) : List Nat :=
  [w % 256, w / 256 % 256, w / 65536 % 256, w / 16777216 % 256]

/-- The sixteen digest bytes. -/
def md5Bytes (msg : List Nat) : List Nat :=
  let st := md5Digest msg
  wordLEBytes st.a ++ wordLEBytes st.b ++ wordLEBytes st.c ++ wordLEBytes st.d

def hexChar (n : Nat) : Char :=
  if n < 10 then Char.ofNat (48 + n) else Char.ofNat (87 + n)

def byteHex (b : Nat) : List Char :=
  [hexChar (b / 16 % 16), hexChar (b % 16)]

/-- `hashlib.md5(msg).hexdigest()`: 32 lowercase hex characters. -/
def md5Hexdigest (msg : List Nat) : String :=
  ⟨(md5Bytes msg).foldr (fun b acc => byteHex b ++ acc) []⟩

/-- The digest read as a natural number (little-endian byte fold); used only
to reason about the digest space. -/
def md5Nat (msg : List Nat) : Nat :=
  (md5Bytes msg).foldr (fun b acc => b + 256 * acc) 0

/-! ### UTF-8 encoding, as used by `str.encode()` -/

def utf8EncodeChar (c : Char) : List Nat :=
  let n := c.toNat
  if n < 128 then [n]
  else if n < 2048 then [192 + n / 64, 128 + n % 64]
  else if n < 65536 then [224 + n / 4096, 128 + n / 64 % 64, 128 + n % 64]
  else [240 + n / 262144, 128 + n / 4096 % 64, 128 + n / 64 % 64, 128 + n % 64]

def utf8Encode (s : String) : List Nat :=
  s.data.foldr (fun c acc => utf8EncodeChar c ++ acc) []

/-! ### Identity / dedup key builder (scrape_notable_outages.py, line 66)

`hashlib.md5(f"{municipality}_{sector}_{outage_reported}".encode()).hexdigest()` -/

def outageKeyString (municipality sector outage_reported : String) : String :=
  municipality ++ "_" ++ sector ++ "_" ++ outage_reported

def unique_id (municipality sector outage_reported : String) : String :=
  md5Hexdigest (utf8Encode (outageKeyString municipality sector outage_reported))

/-! ### Grid scraper (scrape_luma_grid_status.py)

A parsed BeautifulSoup document is modelled as the list of its `div`
elements, in document order, keeping exactly the features the scraper reads:
the `id`, the `data-value` attribute, the text of a nested `span.max-text`
(when one exists), and the texts of nested `p.peak-text` elements.
`soup.find("div", id=...)` is first-match in document order. -/

structure SoupDiv where
  id : String
  dataValue : Option String
  maxText : Option String
  peakTexts : List String
deriving DecidableEq, Repr

abbrev Doc := List SoupDiv

def soupFind (doc : Doc) (divId : String) : Option SoupDiv :=
  doc.find? (fun d => d.id == divId)

/-- `int(...)` where failure is the raised `ValueError` (propagates). -/
def liftInt (v : Option Int) : Except String Int :=
  match v with
  | some n => .ok n
  | none => .error "ValueError: invalid literal for int()"

/-- The mapping from target element ids to output keys (lines 50–54). -/
def target_ids : List (String × String) :=
  [("total-Generation", "current_demand"),
   ("next-Hour-Forecast", "next_hour_demand_forecast"),
   ("reserve", "current_reserve")]

/-- `int(div['data-value']) if div.has_attr('data-value') else None`
(line 62); the error is the raised `ValueError`. -/
def readCurrent (d : SoupDiv) : Except String (Option Int) :=
  match d.dataValue with
  | some v => (liftInt (pyInt v)).map some
  | none => .ok none

/-- `int(max_span.get_text(strip=True)) if max_span else None` (line 65). -/
def readMax (d : SoupDiv) : Except String (Option Int) :=
  match d.maxText with
  | some t => (liftInt (pyInt (strip t))).map some
  | none => .ok none

/-- One iteration of the extraction loop (lines 58–71) for a single target:
a missing element gives `(none, none)` without error; a present element reads
the `data-value` integer then the max integer, either `int()` failure
propagating in that order. -/
def extractTarget (doc : Doc) (divId : String) : Except String (Option Int × Option Int) :=
  match soupFind doc divId with
  | none => .ok (none, none)
  | some d =>
    match readCurrent d, readMax d with
    | .ok c, .ok m => .ok (c, m)
    | .error e, _ => .error e
    | _, .error e => .error e

/-- The whole target loop, building the results dict in insertion order. -/
def extractTargets (doc : Doc) : List (String × String) → Except String (List (String × Option Int))
  | [] => .ok []
  | (divId, key) :: rest =>
    match extractTarget doc divId, extractTargets doc rest with
    | .ok cm, .ok tail => .ok ((key, cm.1) :: (key ++ "_max", cm.2) :: tail)
    | .error e, _ => .error e
    | _, .error e => .error e

/-- The peak-text normalizer (lines 78–79):
`int(p.get_text(strip=True).replace("MW", ""))` — strips the `MW` unit but
not commas; `none` is the raised `ValueError`. -/
def peakNormalize (s : String) : Option Int :=
  pyInt (pyReplace (strip s) "MW" "")

/-- The `peak-Forecast` section (lines 74–85). -/
def extractPeaks (doc : Doc) : Except String (List (String × Option Int)) :=
  match soupFind doc "peak-Forecast" with
  | some d =>
    if d.peakTexts.length ≥ 2 then
      match liftInt (peakNormalize (d.peakTexts.getD 0 "")),
            liftInt (peakNormalize (d.peakTexts.getD 1 "")) with
      | .ok pd, .ok pr =>
        .ok [("peak_demand_forecast", some pd), ("peak_reserve_forecast", some pr)]
      | .error e, _ => .error e
      | _, .error e => .error e
    else .ok [("peak_demand_forecast", none), ("peak_reserve_forecast", none)]
  | none => .ok [("peak_demand_forecast", none), ("peak_reserve_forecast", none)]

/-- The numeric part of the `results` dict built by `scrape_luma` (lines
56–85); the capture timestamp appended at line 89 is a process-clock string
outside this model's scope. -/
def scrape_luma_results (doc : Doc) : Except String (List (String × Option Int)) :=
  match extractTargets doc target_ids, extractPeaks doc with
  | .ok a, .ok b => .ok (a ++ b)
  | .error e, _ => .error e
  | _, .error e => .error e

/-- An HTTP response for the grid page. -/
structure HttpResponse where
  status_code : Nat
  doc : Doc
deriving Repr

/-- `scrape_luma` (lines 37–90): a non-200 status raises before any parsing. -/
def scrape_luma (resp : HttpResponse) : Except String (List (String × Option Int)) :=
  if resp.status_code ≠ 200 then
    .error ("Failed to fetch page: " ++ toString resp.status_code)
  else
    scrape_luma_results resp.doc

/-- The grid `__main__` block (lines 101–114): on success the row is inserted
into `luma_scrape_results`; any exception is caught, printed as a diagnostic,
and nothing is written.  Returns the final store and the printed diagnostic,
if any. -/
def run_grid (resp : HttpResponse) (store : List (List (String × Option Int))) :
    List (List (String × Option Int)) × Option String :=
  match scrape_luma resp with
  | .ok results => (store ++ [results], none)
  | .error e => (store, some ("An error occurred:\n" ++ e))

/-! ### Service-status scraper (scrape_service_status.py)

The in-page JavaScript (lines 93–163) extracts one row per region from the
rendered table.  A data row is its list of `div.p-4` cell texts; the header
row gives the column titles.  `findIndex` returning `-1`, or a column index
beyond the cells, makes the JavaScript dereference `undefined` and throw,
modelled as `Except.error`. -/

structure RegionRow where
  region : String
  totalCustomers : String
  outOfService : String
  plannedUpgrades : String
deriving DecidableEq, Repr

/-- `cells[i].textContent.trim()` where `i` comes from a `findIndex`. -/
def getCell (cells : List String) (idx : Option Nat) : Except String String :=
  match idx with
  | none => .error "TypeError: cannot read textContent of undefined"
  | some i =>
    match cells.get? i with
    | none => .error "TypeError: cannot read textContent of undefined"
    | some v => .ok (strip v)

/-- The `dataRows.forEach` body (lines 118–134): rows with at least 8 cells
and a first cell not equal to `Totals` (after trim) become region rows, in
order. -/
def extractRegionRows (tci osi pui : Option Nat) :
    List (List String) → Except String (List RegionRow)
  | [] => .ok []
  | cells :: rest =>
    if cells.length ≥ 8 then
      if strip (cells.getD 0 "") ≠ "Totals" then
        match getCell cells tci, getCell cells osi, getCell cells pui,
              extractRegionRows tci osi pui rest with
        | .ok tc, .ok os, .ok pu, .ok tail =>
          .ok (⟨strip (cells.getD 0 ""), tc, os, pu⟩ :: tail)
        | .error e, _, _, _ => .error e
        | _, .error e, _, _ => .error e
        | _, _, .error e, _ => .error e
        | _, _, _, .error e => .error e
      else extractRegionRows tci osi pui rest
    else extractRegionRows tci osi pui rest

/-- The table extraction given the header titles and the data rows
(lines 109–134). -/
def scrapeRegionTable (headers : List String) (dataRows : List (List String)) :
    Except String (List RegionRow) :=
  extractRegionRows
    (headers.findIdx? (fun h => h == "Total customers"))
    (headers.findIdx? (fun h => h == "Out of Service"))
    (headers.findIdx? (fun h => h == "Planned Upgrades"))
    dataRows

/-- The region-count normalizer used by `save_data_to_supabase` (lines
34–36): `int(text.replace(",", ""))` — strips commas but not units; `none`
is the raised `ValueError`. -/
def regionNormalize (s : String) : Option Int :=
  pyInt (pyReplace s "," "")

/-- The slugified region key: `region.lower().replace(" ", "_")` (line 33). -/
def slugify (s : String) : String :=
  pyReplace (lowerStr s) " " "_"

/-- The per-region numeric columns of the flat row built by
`save_data_to_supabase` (lines 32–36), in insertion order; the `timestamp`
and `last_update` fields are copied through unchanged and are not modelled
here. -/
def save_data_to_supabase : List RegionRow → Except String (List (String × Int))
  | [] => .ok []
  | r :: rest =>
    match liftInt (regionNormalize r.totalCustomers),
          liftInt (regionNormalize r.outOfService),
          liftInt (regionNormalize r.plannedUpgrades),
          save_data_to_supabase rest with
    | .ok tc, .ok os, .ok pu, .ok tail =>
      .ok (("total_customers_" ++ slugify r.region, tc) ::
           ("out_of_service_" ++ slugify r.region, os) ::
           ("planned_upgrades_" ++ slugify r.region, pu) :: tail)
    | .error e, _, _, _ => .error e
    | _, .error e, _, _ => .error e
    | _, _, .error e, _ => .error e
    | _, _, _, .error e => .error e

/-! ### Snapshot differ (scrape_service_status.py, lines 46–73) -/

/-- One stored `outage_snapshot` row, as far as the differ reads it: its
insertion-timestamp ordering key and its `last_update` text. -/
structure SnapRow where
  ts : Nat
  last_update : String
deriving DecidableEq, Repr

/-- The row returned by
`select("last_update").order("timestamp", desc=True).limit(1)`:
the row with the greatest insertion timestamp (`none` on an empty store). -/
def latestRow : List SnapRow → Option SnapRow
  | [] => none
  | r :: rs =>
    match latestRow rs with
    | none => some r
    | some m => some (if m.ts > r.ts then m else r)

/-- `is_newer_last_update` (lines 46–73).  The new marker is parsed first,
outside any try/except, so its `ValueError` propagates (`none`).  A stored
marker that fails to parse is caught and answered with `True`
("if in doubt, insert"); an empty store is answered with `True`; otherwise
the answer is `new_time > latest_time`. -/
def is_newer_last_update (scraped_last_update : String) (store : List SnapRow) :
    Option Bool :=
  match strptime_mdyhmp scraped_last_update with
  | none => none
  | some new_time =>
    match latestRow store with
    | some row =>
      match strptime_mdyhmp row.last_update with
      | some latest_time => some (dtLtB latest_time new_time)
      | none => some true
    | none => some true

/-! ### Notable-outages scraper (scrape_notable_outages.py) -/

/-- The per-row record dict (lines 83–95).  The code stores each timestamp as
its `isoformat()` string (or `None`); the model keeps the `PyDateTime` value,
whose ISO rendering is injective.  `scraped_at` is the process clock, outside
this model's scope. -/
structure OutageRecord where
  id : String
  municipality : String
  sector : String
  outage_reported_text : String
  outage_reported_timestamp : Option PyDateTime
  restoration_estimated_text : String
  restoration_estimated_timestamp : Option PyDateTime
  customers_impacted : String
  category : String
  current_status : String
deriving DecidableEq, Repr

/-- The body of the row loop (lines 54–97) for one table row, given the
current year (`datetime.now().year`) and the row's `td` cell texts: rows with
fewer than 7 cells are skipped, date parse failures leave the corresponding
timestamp `None` without aborting the record. -/
def buildOutage (year : Nat) (cells : List String) : Option OutageRecord :=
  if cells.length ≥ 7 then
    let municipality := strip (cells.getD 0 "")
    let sector := strip (cells.getD 1 "")
    let outage_reported := strip (cells.getD 2 "")
    let est_restoration := strip (cells.getD 3 "")
    some
      { id := unique_id municipality sector outage_reported
        municipality := municipality
        sector := sector
        outage_reported_text := outage_reported
        outage_reported_timestamp := (strptime_bdhm outage_reported).map (pyReplaceYear year)
        restoration_estimated_text := est_restoration
        restoration_estimated_timestamp := (strptime_bdhm est_restoration).map (pyReplaceYear year)
        customers_impacted := strip (cells.getD 4 "")
        category := strip (cells.getD 5 "")
        current_status := strip (cells.getD 6 "") }
  else none

/-- The full row loop over the scraped table rows. -/
def scrape_outage_rows (year : Nat) (rows : List (List String)) : List OutageRecord :=
  rows.filterMap (buildOutage year)

/-- `scrape_luma_outages` (lines 34–106) given the navigation/render outcome:
a successful render yields the table rows; any exception is caught, a
diagnostic is printed, and the empty list is returned.  The result is the
outage list plus the printed diagnostic, if any. -/
def scrape_luma_outages (year : Nat) (fetched : Except String (List (List String))) :
    List OutageRecord × Option String :=
  match fetched with
  | .ok rows => (scrape_outage_rows year rows, none)
  | .error e => ([], some ("Error scraping data: " ++ e))

/-! ### Upsert coordinator (scrape_notable_outages.py, lines 108–137)

The store is the `luma_outages` table, one row per id. -/

/-- `[o for o in outages if o['id'] not in existing_ids]` (line 121). -/
def new_outages (existing_ids : List String) (outages : List OutageRecord) :
    List OutageRecord :=
  outages.filter (fun o => ¬ existing_ids.contains o.id)

/-- `[o for o in outages if o['id'] in existing_ids]` (line 122). -/
def update_outages (existing_ids : List String) (outages : List OutageRecord) :
    List OutageRecord :=
  outages.filter (fun o => existing_ids.contains o.id)

/-- One `update(outage).eq("id", outage['id'])` call: every stored row whose
id matches is overwritten with the new record. -/
def applyUpdate (store : List OutageRecord) (o : OutageRecord) : List OutageRecord :=
  store.map (fun r => if r.id = o.id then o else r)

/-- `store_outages_in_supabase` (lines 108–137): an empty batch writes
nothing; otherwise the insert-set is appended as one batched insert, then the
update-set is applied row by row.  Returns the final store contents. -/
def store_outages_in_supabase (store : List OutageRecord) (outages : List OutageRecord) :
    List OutageRecord :=
  if outages.isEmpty then store
  else
    let existing_ids := store.map (fun r => r.id)
    let afterInsert := store ++ new_outages existing_ids outages
    (update_outages existing_ids outages).foldl applyUpdate afterInsert

/-- The digest value as an element of the 128-bit digest space; used only to
reason about the finiteness of the id space. -/
def md5Fin (l : List Nat) : Fin (2 ^ 128) :=
  ⟨md5Nat l % 2 ^ 128, Nat.mod_lt _ (by norm_num)⟩

/-- Concrete records for the C5 witness: stored ids {A, B}, incoming ids
{A, C}, the incoming A-record carrying a changed status. -/
def mkOutage (i status : String) : OutageRecord :=
  ⟨i, "m", "s", "t", none, "rt", none, "ci", "cat", status⟩

/-! ## Theorems -/

set_option maxRecDepth 10000

/-- C1, counterexample.  The claim says that when the most recently stored
marker fails to parse, the differ answers newer=true "regardless of the new
marker's value".  With the new marker itself unparseable ("garbage") and the
stored marker unparseable ("junk"), `is_newer_last_update` instead raises
`ValueError` (modelled as `none`): line 52 of scrape_service_status.py parses
the new marker outside any try/except, so the result is not `true`. -/
theorem C1_counterexample :
    is_newer_last_update "garbage" [⟨0, "junk"⟩] = none ∧
    is_newer_last_update "garbage" [⟨0, "junk"⟩] ≠ some true := by decide

/-- C1, amended.  Provided the newly scraped marker parses with
`"%m/%d/%Y %I:%M %p"`, the differ behaves exactly as claimed, in priority
order: an empty store answers `true`; a latest stored marker that fails to
parse answers `true`; otherwise the answer is `new > stored` under
chronological (lexicographic) datetime order, so an equal or earlier new
marker answers `false`. -/
theorem C1_differ_behaviour (scraped : String) (ndt : PyDateTime) (store : List SnapRow)
    (hnew : strptime_mdyhmp scraped = some ndt) :
    (store = [] → is_newer_last_update scraped store = some true) ∧
    (∀ row, latestRow store = some row → strptime_mdyhmp row.last_update = none →
      is_newer_last_update scraped store = some true) ∧
    (∀ row ldt, latestRow store = some row → strptime_mdyhmp row.last_update = some ldt →
      is_newer_last_update scraped store = some (dtLtB ldt ndt)) := by
  refine ⟨?_, ?_, ?_⟩
  · intro h
    subst h
    simp [is_newer_last_update, hnew, latestRow]
  · intro row hrow hnone
    simp [is_newer_last_update, hnew, hrow, hnone]
  · intro row ldt hrow hldt
    simp [is_newer_last_update, hnew, hrow, hldt]

/-- C1, witness: the spec's own examples.  Stored "01/01/2024 01:00 PM" and
new "01/01/2024 02:00 PM" give `true`; an empty store gives `true`; an
unparseable stored marker gives `true`; an equal new marker gives `false`. -/
theorem C1_differ_behaviour_witness :
    is_newer_last_update "01/01/2024 02:00 PM" [] = some true ∧
    is_newer_last_update "01/01/2024 02:00 PM" [⟨0, "junk"⟩] = some true ∧
    is_newer_last_update "01/01/2024 02:00 PM" [⟨0, "01/01/2024 01:00 PM"⟩] = some true ∧
    is_newer_last_update "01/01/2024 01:00 PM" [⟨0, "01/01/2024 01:00 PM"⟩] = some false := by
  refine ⟨?_, ?_, ?_, ?_⟩
  · exact (C1_differ_behaviour _ ⟨2024, 1, 1, 14, 0⟩ _ (by decide)).1 rfl
  · exact (C1_differ_behaviour _ ⟨2024, 1, 1, 14, 0⟩ _ (by decide)).2.1
      ⟨0, "junk"⟩ (by decide) (by decide)
  · exact ((C1_differ_behaviour _ ⟨2024, 1, 1, 14, 0⟩ _ (by decide)).2.2
      ⟨0, "01/01/2024 01:00 PM"⟩ ⟨2024, 1, 1, 13, 0⟩ (by decide) (by decide)).trans (by decide)
  · exact ((C1_differ_behaviour _ ⟨2024, 1, 1, 13, 0⟩ _ (by decide)).2.2
      ⟨0, "01/01/2024 01:00 PM"⟩ ⟨2024, 1, 1, 13, 0⟩ (by decide) (by decide)).trans (by decide)

/-- C2, counterexample.  No code path strips both the "MW" suffix and the
thousands-separator commas: the peak-text normalizer (line 78 of
scrape_luma_grid_status.py) only strips "MW", the region-count normalizer
(lines 34–36 of scrape_service_status.py) only strips commas, so the claimed
input "1,234 MW" parses on neither path — both raise `ValueError` (`none`)
instead of producing 1234. -/
theorem C2_counterexample :
    peakNormalize "1,234 MW" ≠ some 1234 ∧ regionNormalize "1,234 MW" ≠ some 1234 ∧
    peakNormalize "1,234 MW" = none ∧ regionNormalize "1,234 MW" = none := by decide

/-- C2, amended.  There are two distinct normalizers: the peak-text path
strips only the "MW" unit suffix before integer parsing (commas are a hard
`ValueError`), the region-count path strips only commas (a unit suffix is a
hard `ValueError`); plain "987" parses to 987 on both; an absent
`peak-Forecast` element yields null for both peak fields; empty text is a
`ValueError`, not null. -/
theorem C2_two_normalizers :
    (peakNormalize "987" = some 987 ∧ peakNormalize "987 MW" = some 987 ∧
     peakNormalize "1,234 MW" = none ∧ peakNormalize "" = none) ∧
    (regionNormalize "987" = some 987 ∧ regionNormalize "1,234" = some 1234 ∧
     regionNormalize "1,234 MW" = none ∧ regionNormalize "" = none) ∧
    (∀ doc : Doc, soupFind doc "peak-Forecast" = none →
      extractPeaks doc = .ok [("peak_demand_forecast", none), ("peak_reserve_forecast", none)]) := by
  refine ⟨by decide, by decide, ?_⟩
  intro doc h
  unfold extractPeaks
  rw [h]

/-- C2, witness: the missing-section branch at a concrete document, plus a
concrete evaluation of the peak normalizer. -/
theorem C2_two_normalizers_witness :
    extractPeaks [⟨"total-Generation", some "2750", none, []⟩] =
      .ok [("peak_demand_forecast", none), ("peak_reserve_forecast", none)] ∧
    peakNormalize "987" = some 987 :=
  ⟨C2_two_normalizers.2.2 _ (by decide), C2_two_normalizers.1.1⟩

/-- C3, counterexample.  The claim says an unparseable new recency marker
makes the differ return `true` rather than raise.  In the code the new marker
is parsed at line 52, outside any try/except, so even with an empty store the
call raises `ValueError` (modelled as `none`) instead of returning `true`. -/
theorem C3_counterexample :
    is_newer_last_update "not a date" [] = none ∧
    is_newer_last_update "not a date" [] ≠ some true := by decide

/-- C3, amended.  The fail-open treatment applies to the STORED marker, not
the new one: a new marker that fails to parse with `"%m/%d/%Y %I:%M %p"`
always raises (aborting the run), while a stored marker that fails to parse
(the new one parsing) is answered with `true`. -/
theorem C3_new_marker_raises :
    (∀ (s : String) (store : List SnapRow), strptime_mdyhmp s = none →
      is_newer_last_update s store = none) ∧
    (∀ (s : String) (ndt : PyDateTime) (store : List SnapRow) (row : SnapRow),
      strptime_mdyhmp s = some ndt → latestRow store = some row →
      strptime_mdyhmp row.last_update = none →
      is_newer_last_update s store = some true) := by
  constructor
  · intro s store h
    simp [is_newer_last_update, h]
  · intro s ndt store row hs hrow hnone
    simp [is_newer_last_update, hs, hrow, hnone]

/-- C3, witness: an unparseable new marker raises against a populated store,
and a parseable new marker against an unparseable stored marker returns
`true`. -/
theorem C3_new_marker_raises_witness :
    is_newer_last_update "bogus marker" [⟨0, "01/01/2024 01:00 PM"⟩] = none ∧
    is_newer_last_update "02/02/2024 09:30 AM" [⟨0, "unparseable"⟩] = some true :=
  ⟨C3_new_marker_raises.1 _ _ (by decide),
   C3_new_marker_raises.2 _ ⟨2024, 2, 2, 9, 30⟩ _ ⟨0, "unparseable"⟩ (by decide) (by decide)
     (by decide)⟩

/-- Helper for C7: the region-row loop never emits a row named "Totals",
whatever the column indices resolved to. -/
theorem extractRegionRows_no_totals (tci osi pui : Option Nat) :
    ∀ (rows : List (List String)) (out : List RegionRow),
      extractRegionRows tci osi pui rows = .ok out → ∀ r ∈ out, r.region ≠ "Totals" := by
  intro rows
  induction rows with
  | nil =>
    intro out h r hr
    simp only [extractRegionRows] at h
    cases h
    simp at hr
  | cons cells rest ih =>
    intro out h r hr
    simp only [extractRegionRows] at h
    by_cases h8 : cells.length ≥ 8
    · rw [if_pos h8] at h
      by_cases hT : strip (cells.getD 0 "") ≠ "Totals"
      · rw [if_pos hT] at h
        cases htc : getCell cells tci with
        | error e => rw [htc] at h; simp at h
        | ok tc =>
          rw [htc] at h
          cases hos : getCell cells osi with
          | error e => rw [hos] at h; simp at h
          | ok os =>
            rw [hos] at h
            cases hpu : getCell cells pui with
            | error e => rw [hpu] at h; simp at h
            | ok pu =>
              rw [hpu] at h
              cases hrest : extractRegionRows tci osi pui rest with
              | error e => rw [hrest] at h; simp at h
              | ok tail =>
                rw [hrest] at h
                simp only [Except.ok.injEq] at h
                subst h
                rcases List.mem_cons.mp hr with hhead | htail
                · subst hhead
                  exact hT
                · exact ih _ hrest r htail
      · rw [if_neg hT] at h
        exact ih _ h r hr
    · rw [if_neg h8] at h
      exact ih _ h r hr

/-- C7: for every header row, every data-row list and every ordering of it,
whenever the table extraction succeeds, no row of the output region list is
named "Totals": the aggregate pseudo-row is always excluded. -/
theorem C7_totals_excluded (headers : List String) (dataRows : List (List String))
    (out : List RegionRow) (h : scrapeRegionTable headers dataRows = .ok out) :
    ∀ r ∈ out, r.region ≠ "Totals" :=
  extractRegionRows_no_totals _ _ _ dataRows out h

/-- C7, witness: a concrete table containing a "Totals" row in first and a
region row in second position; extraction succeeds, keeps San Juan, and the
theorem applies to the output row. -/
theorem C7_totals_excluded_witness :
    scrapeRegionTable
      ["Region", "x", "y", "z", "w", "Total customers", "Out of Service", "Planned Upgrades"]
      [["Totals", "a", "b", "c", "d", "1,469,467", "14,080", "369"],
       ["San Juan", "a", "b", "c", "d", "469,467", "4,080", "69"]] =
      .ok [⟨"San Juan", "469,467", "4,080", "69"⟩] ∧
    (⟨"San Juan", "469,467", "4,080", "69"⟩ : RegionRow).region ≠ "Totals" := by
  constructor
  · rfl
  · exact C7_totals_excluded
      ["Region", "x", "y", "z", "w", "Total customers", "Out of Service", "Planned Upgrades"]
      [["Totals", "a", "b", "c", "d", "1,469,467", "14,080", "369"],
       ["San Juan", "a", "b", "c", "d", "469,467", "4,080", "69"]]
      [⟨"San Juan", "469,467", "4,080", "69"⟩] (by rfl) _ (by simp)

/-- C9: a non-success HTTP status makes the grid scrape raise before parsing;
the `__main__` handler catches it, prints a diagnostic and performs no insert,
so the store is unchanged.  A navigation/render failure in the notable-outages
scrape is caught, a diagnostic printed, the empty list returned, and the
storage routine writes nothing for an empty batch — so no partial write
occurs in either case. -/
theorem C9_fetch_failure :
    (∀ (resp : HttpResponse) (store : List (List (String × Option Int))),
      resp.status_code ≠ 200 →
      (run_grid resp store).1 = store ∧ ((run_grid resp store).2).isSome = true) ∧
    (∀ (year : Nat) (e : String) (store : List OutageRecord),
      (scrape_luma_outages year (.error e)).1 = [] ∧
      ((scrape_luma_outages year (.error e)).2).isSome = true ∧
      store_outages_in_supabase store [] = store) := by
  constructor
  · intro resp store h
    constructor <;> simp [run_grid, scrape_luma, h]
  · intro year e store
    refine ⟨rfl, rfl, rfl⟩

/-- C9, witness: a 403 response leaves the grid store unchanged with a
diagnostic; a render timeout yields the empty outage list with a diagnostic,
and storing the empty batch writes nothing. -/
theorem C9_fetch_failure_witness :
    (run_grid ⟨403, []⟩ []).1 = [] ∧ ((run_grid ⟨403, []⟩ []).2).isSome = true ∧
    (scrape_luma_outages 2024 (.error "timeout")).1 = [] ∧
    ((scrape_luma_outages 2024 (.error "timeout")).2).isSome = true ∧
    store_outages_in_supabase [] [] = [] := by
  refine ⟨(C9_fetch_failure.1 ⟨403, []⟩ [] (by decide)).1,
          (C9_fetch_failure.1 ⟨403, []⟩ [] (by decide)).2,
          (C9_fetch_failure.2 2024 "timeout" []).1,
          (C9_fetch_failure.2 2024 "timeout" []).2.1,
          (C9_fetch_failure.2 2024 "timeout" []).2.2⟩

/-- Helper for C10: a produced record comes from a row with at least 7 cells. -/
theorem buildOutage_some_length {y : Nat} {row : List String} {rec : OutageRecord}
    (h : buildOutage y row = some rec) : 7 ≤ row.length := by
  by_cases h7 : row.length ≥ 7
  · exact h7
  · rw [buildOutage, if_neg h7] at h
    exact absurd h (by simp)

/-- C10: every table row with fewer than 7 cells is silently skipped — the
output never exceeds the number of rows, every output record comes from some
row with at least 7 cells, and deleting a short row anywhere leaves the output
unchanged (so a short row contributes nothing and raises nothing, the whole
loop being a total function). -/
theorem C10_short_rows_skipped (year : Nat) :
    (∀ rows : List (List String), (scrape_outage_rows year rows).length ≤ rows.length) ∧
    (∀ rows : List (List String), ∀ rec ∈ scrape_outage_rows year rows,
      ∃ row, row ∈ rows ∧ 7 ≤ row.length ∧ buildOutage year row = some rec) ∧
    (∀ (pre post : List (List String)) (r : List String), r.length < 7 →
      scrape_outage_rows year (pre ++ r :: post) = scrape_outage_rows year (pre ++ post)) := by
  refine ⟨?_, ?_, ?_⟩
  · intro rows
    exact List.length_filterMap_le _ _
  · intro rows rec hrec
    obtain ⟨row, hmem, hbuild⟩ := List.mem_filterMap.mp hrec
    exact ⟨row, hmem, buildOutage_some_length hbuild, hbuild⟩
  · intro pre post r hr
    have hnone : buildOutage year r = none := by
      rw [buildOutage, if_neg (by omega)]
    simp [scrape_outage_rows, List.filterMap_append, List.filterMap_cons, hnone]

/-- C10, witness: a 2-cell row yields no record; a 1-cell row inserted into
the empty row list changes nothing; a full 7-cell row yields exactly the
record built from it. -/
theorem C10_short_rows_skipped_witness :
    (scrape_outage_rows 2024 [["only", "two"]]).length ≤ 1 ∧
    scrape_outage_rows 2024 ([] ++ ["x"] :: []) = scrape_outage_rows 2024 ([] ++ []) ∧
    (∃ row, row ∈ [["a", "b", "c", "d", "e", "f", "g"]] ∧ 7 ≤ row.length ∧
      buildOutage 2024 row =
        some ⟨unique_id "a" "b" "c", "a", "b", "c", none, "d", none, "e", "f", "g"⟩) := by
  refine ⟨?_, ?_, ?_⟩
  · exact (C10_short_rows_skipped 2024).1 [["only", "two"]]
  · exact (C10_short_rows_skipped 2024).2.2 [] [] ["x"] (by decide)
  · exact (C10_short_rows_skipped 2024).2.1 [["a", "b", "c", "d", "e", "f", "g"]]
      ⟨unique_id "a" "b" "c", "a", "b", "c", none, "d", none, "e", "f", "g"⟩ (by decide)

/-- Helper for C5: a record whose id differs from every update survives the
per-row update loop. -/
theorem mem_foldl_applyUpdate (r : OutageRecord) :
    ∀ (ups : List OutageRecord) (st : List OutageRecord),
      r ∈ st → (∀ o ∈ ups, o.id ≠ r.id) → r ∈ ups.foldl applyUpdate st := by
  intro ups
  induction ups with
  | nil =>
    intro st hr _
    simpa using hr
  | cons o rest ih =>
    intro st hr hids
    simp only [List.foldl_cons]
    apply ih
    · have h2 : (if r.id = o.id then o else r) ∈
          st.map (fun x => if x.id = o.id then o else x) :=
        List.mem_map_of_mem (fun x => if x.id = o.id then o else x) hr
      have hne : ¬ r.id = o.id := fun hh => (hids o (by simp)) hh.symm
      rw [if_neg hne] at h2
      exact h2
    · intro o2 h2
      exact hids o2 (by simp [h2])

/-- C5: the upsert coordinator partitions the incoming batch by membership of
the record's id among the stored ids — the insert-set is exactly the records
whose id is absent, the update-set exactly those whose id is present — and a
stored record whose id matches no incoming record is still present, unchanged,
in the final store. -/
theorem C5_upsert_partition (store outages : List OutageRecord) :
    (∀ o : OutageRecord,
      (o ∈ new_outages (store.map (fun r => r.id)) outages ↔
        o ∈ outages ∧ ¬ o.id ∈ store.map (fun r => r.id)) ∧
      (o ∈ update_outages (store.map (fun r => r.id)) outages ↔
        o ∈ outages ∧ o.id ∈ store.map (fun r => r.id))) ∧
    (∀ r ∈ store, (∀ o ∈ outages, o.id ≠ r.id) →
      r ∈ store_outages_in_supabase store outages) := by
  constructor
  · intro o
    constructor
    · simp [new_outages, List.mem_filter]
    · simp [update_outages, List.mem_filter]
  · intro r hr hids
    unfold store_outages_in_supabase
    by_cases hempty : outages.isEmpty
    · rw [if_pos hempty]
      exact hr
    · rw [if_neg hempty]
      apply mem_foldl_applyUpdate
      · exact List.mem_append_left _ hr
      · intro o ho
        exact hids o (List.mem_filter.mp ho).1

/-- C5, witness: with stored ids {A, B} and incoming ids {A, C}, the
insert-set is exactly {C}, the update-set exactly {A}, and B is still in the
final store. -/
theorem C5_upsert_partition_witness :
    mkOutage "C" "new" ∈
      new_outages ([mkOutage "A" "old", mkOutage "B" "old"].map (fun r => r.id))
        [mkOutage "A" "new", mkOutage "C" "new"] ∧
    mkOutage "A" "new" ∈
      update_outages ([mkOutage "A" "old", mkOutage "B" "old"].map (fun r => r.id))
        [mkOutage "A" "new", mkOutage "C" "new"] ∧
    mkOutage "B" "old" ∈
      store_outages_in_supabase [mkOutage "A" "old", mkOutage "B" "old"]
        [mkOutage "A" "new", mkOutage "C" "new"] ∧
    new_outages ([mkOutage "A" "old", mkOutage "B" "old"].map (fun r => r.id))
        [mkOutage "A" "new", mkOutage "C" "new"] = [mkOutage "C" "new"] ∧
    update_outages ([mkOutage "A" "old", mkOutage "B" "old"].map (fun r => r.id))
        [mkOutage "A" "new", mkOutage "C" "new"] = [mkOutage "A" "new"] := by
  refine ⟨?_, ?_, ?_, by decide, by decide⟩
  · exact ((C5_upsert_partition [mkOutage "A" "old", mkOutage "B" "old"]
      [mkOutage "A" "new", mkOutage "C" "new"]).1 (mkOutage "C" "new")).1.mpr
      ⟨by decide, by decide⟩
  · exact ((C5_upsert_partition [mkOutage "A" "old", mkOutage "B" "old"]
      [mkOutage "A" "new", mkOutage "C" "new"]).1 (mkOutage "A" "new")).2.mpr
      ⟨by decide, by decide⟩
  · exact (C5_upsert_partition [mkOutage "A" "old", mkOutage "B" "old"]
      [mkOutage "A" "new", mkOutage "C" "new"]).2 (mkOutage "B" "old") (by decide) (by decide)

/-- C8: every row with at least 7 cells produces a record; its two timestamp
fields are the result of parsing the (stripped) reported and restoration
texts with the year-less format `'%B %d %H:%M\''` and injecting the current
year — `none` exactly on parse failure, `some` with the year replaced on
success — while every other field is still populated from its cell, a parse
failure never aborting the record. -/
theorem C8_outage_time_parsing (year : Nat) (cells : List String) (h7 : 7 ≤ cells.length) :
    ∃ rec, buildOutage year cells = some rec ∧
      rec.outage_reported_timestamp =
        (strptime_bdhm (strip (cells.getD 2 ""))).map (pyReplaceYear year) ∧
      rec.restoration_estimated_timestamp =
        (strptime_bdhm (strip (cells.getD 3 ""))).map (pyReplaceYear year) ∧
      (strptime_bdhm (strip (cells.getD 2 "")) = none →
        rec.outage_reported_timestamp = none) ∧
      (∀ dt, strptime_bdhm (strip (cells.getD 2 "")) = some dt →
        rec.outage_reported_timestamp = some (pyReplaceYear year dt)) ∧
      (strptime_bdhm (strip (cells.getD 3 "")) = none →
        rec.restoration_estimated_timestamp = none) ∧
      (∀ dt, strptime_bdhm (strip (cells.getD 3 "")) = some dt →
        rec.restoration_estimated_timestamp = some (pyReplaceYear year dt)) ∧
      rec.municipality = strip (cells.getD 0 "") ∧
      rec.sector = strip (cells.getD 1 "") ∧
      rec.outage_reported_text = strip (cells.getD 2 "") ∧
      rec.restoration_estimated_text = strip (cells.getD 3 "") ∧
      rec.customers_impacted = strip (cells.getD 4 "") ∧
      rec.category = strip (cells.getD 5 "") ∧
      rec.current_status = strip (cells.getD 6 "") := by
  rw [buildOutage, if_pos h7]
  refine ⟨_, rfl, rfl, rfl, ?_, ?_, ?_, ?_, rfl, rfl, rfl, rfl, rfl, rfl, rfl⟩
  · intro hn
    show (strptime_bdhm (strip (cells.getD 2 ""))).map (pyReplaceYear year) = none
    rw [hn]
    rfl
  · intro dt hdt
    show (strptime_bdhm (strip (cells.getD 2 ""))).map (pyReplaceYear year) =
      some (pyReplaceYear year dt)
    rw [hdt]
    rfl
  · intro hn
    show (strptime_bdhm (strip (cells.getD 3 ""))).map (pyReplaceYear year) = none
    rw [hn]
    rfl
  · intro dt hdt
    show (strptime_bdhm (strip (cells.getD 3 ""))).map (pyReplaceYear year) =
      some (pyReplaceYear year dt)
    rw [hdt]
    rfl

/-- C8, witness: a concrete 7-cell row whose reported text is unparseable and
whose restoration text parses: the record is produced, the reported timestamp
is null, the restoration timestamp carries the injected year 2025, and the
text fields survive. -/
theorem C8_outage_time_parsing_witness :
    ∃ rec, buildOutage 2025
        ["San Juan", "Hato Rey", "garbage date", "May 12 13:45".push apostrophe,
         "1200", "Line", "In progress"] = some rec ∧
      rec.outage_reported_timestamp = none ∧
      rec.restoration_estimated_timestamp = some ⟨2025, 5, 12, 13, 45⟩ ∧
      rec.municipality = "San Juan" ∧
      rec.outage_reported_text = "garbage date" := by
  obtain ⟨rec, hbuild, _, _, hn2, _, _, hs3, hm, _, ht2, _⟩ :=
    C8_outage_time_parsing 2025
      ["San Juan", "Hato Rey", "garbage date", "May 12 13:45".push apostrophe,
       "1200", "Line", "In progress"] (by decide)
  refine ⟨rec, hbuild, hn2 (by decide), ?_, hm.trans (by decide), ht2.trans (by decide)⟩
  exact (hs3 ⟨1900, 5, 12, 13, 45⟩ (by decide)).trans (by decide)

/-- Helper for C4: a missing target element extracts to `(none, none)`
without error. -/
theorem extractTarget_missing (doc : Doc) (divId : String)
    (h : soupFind doc divId = none) : extractTarget doc divId = .ok (none, none) := by
  unfold extractTarget
  rw [h]

/-- Helper for C4: finding the element reduces the extraction to its two
field reads. -/
theorem extractTarget_eq_found (doc : Doc) (divId : String) (d : SoupDiv)
    (hd : soupFind doc divId = some d) :
    extractTarget doc divId =
      match readCurrent d, readMax d with
      | .ok c, .ok m => .ok (c, m)
      | .error e, _ => .error e
      | _, .error e => .error e := by
  unfold extractTarget
  rw [hd]

/-- Helper for C4: a present element with a parseable `data-value` makes the
extracted current value exactly that integer. -/
theorem extractTarget_current (doc : Doc) (divId : String) (d : SoupDiv) (v : String) (n : Int)
    (hd : soupFind doc divId = some d) (hv : d.dataValue = some v) (hn : pyInt v = some n)
    (c m : Option Int) (h : extractTarget doc divId = .ok (c, m)) : c = some n := by
  rw [extractTarget_eq_found doc divId d hd] at h
  have hc : readCurrent d = .ok (some n) := by
    unfold readCurrent
    rw [hv]
    show Except.map some (liftInt (pyInt v)) = Except.ok (some n)
    rw [hn]
    rfl
  rw [hc] at h
  cases hm : readMax d with
  | error e => rw [hm] at h; simp at h
  | ok mv =>
    rw [hm] at h
    simp only [Except.ok.injEq, Prod.mk.injEq] at h
    exact h.1.symm

/-- Helper for C4: a successful grid scrape decomposes into the three target
extractions, the peak extraction, and the results dict in insertion order. -/
theorem scrape_ok_decomp (doc : Doc) (res : List (String × Option Int))
    (h : scrape_luma_results doc = .ok res) :
    ∃ c1 m1 c2 m2 c3 m3 tail,
      extractTarget doc "total-Generation" = .ok (c1, m1) ∧
      extractTarget doc "next-Hour-Forecast" = .ok (c2, m2) ∧
      extractTarget doc "reserve" = .ok (c3, m3) ∧
      extractPeaks doc = .ok tail ∧
      res = ("current_demand", c1) :: ("current_demand_max", m1) ::
            ("next_hour_demand_forecast", c2) :: ("next_hour_demand_forecast_max", m2) ::
            ("current_reserve", c3) :: ("current_reserve_max", m3) :: tail := by
  unfold scrape_luma_results at h
  cases h1 : extractTargets doc target_ids with
  | error e => rw [h1] at h; simp at h
  | ok a =>
    rw [h1] at h
    cases h2 : extractPeaks doc with
    | error e => rw [h2] at h; simp at h
    | ok tail =>
      rw [h2] at h
      simp only [Except.ok.injEq] at h
      simp only [target_ids, extractTargets] at h1
      cases ht1 : extractTarget doc "total-Generation" with
      | error e => rw [ht1] at h1; simp at h1
      | ok cm1 =>
        rw [ht1] at h1
        cases ht2 : extractTarget doc "next-Hour-Forecast" with
        | error e => rw [ht2] at h1; simp at h1
        | ok cm2 =>
          rw [ht2] at h1
          cases ht3 : extractTarget doc "reserve" with
          | error e => rw [ht3] at h1; simp at h1
          | ok cm3 =>
            rw [ht3] at h1
            simp only [Except.ok.injEq] at h1
            refine ⟨cm1.1, cm1.2, cm2.1, cm2.2, cm3.1, cm3.2, tail, rfl, rfl, rfl, rfl, ?_⟩
            rw [← h, ← h1]
            rfl

/-- C4: for every parsed document and every target id in the extractor's
mapping, a successful scrape's results dict holds, under the mapped key,
exactly the integer parsed from the element's `data-value` when the element
is present with a numeric attribute, and null for both the key and its
`_max` counterpart when the element is absent; and a document in which every
target (and the peak section) is absent never raises — extraction succeeds
with all-null fields. -/
theorem C4_grid_extractor :
    (∀ (doc : Doc) (res : List (String × Option Int)),
      scrape_luma_results doc = .ok res →
      ∀ divId key, (divId, key) ∈ target_ids →
        ((∀ d v n, soupFind doc divId = some d → d.dataValue = some v → pyInt v = some n →
            res.lookup key = some (some n)) ∧
         (soupFind doc divId = none →
            res.lookup key = some none ∧ res.lookup (key ++ "_max") = some none))) ∧
    (∀ doc : Doc,
      (∀ p ∈ target_ids, soupFind doc p.1 = none) → soupFind doc "peak-Forecast" = none →
      scrape_luma_results doc = .ok
        [("current_demand", none), ("current_demand_max", none),
         ("next_hour_demand_forecast", none), ("next_hour_demand_forecast_max", none),
         ("current_reserve", none), ("current_reserve_max", none),
         ("peak_demand_forecast", none), ("peak_reserve_forecast", none)]) := by
  constructor
  · intro doc res h divId key hmem
    obtain ⟨c1, m1, c2, m2, c3, m3, tail, ht1, ht2, ht3, hp, hres⟩ := scrape_ok_decomp doc res h
    subst hres
    simp only [target_ids, List.mem_cons, List.not_mem_nil, or_false] at hmem
    rcases hmem with hmem | hmem | hmem
    · injection hmem with hdiv hkey
      subst hdiv
      subst hkey
      constructor
      · intro d v n hd hv hn
        have hc := extractTarget_current doc _ d v n hd hv hn c1 m1 ht1
        subst hc
        rfl
      · intro hmiss
        have hmm := (extractTarget_missing doc _ hmiss).symm.trans ht1
        simp only [Except.ok.injEq, Prod.mk.injEq] at hmm
        obtain ⟨hc, hm⟩ := hmm
        cases hc
        cases hm
        exact ⟨rfl, rfl⟩
    · injection hmem with hdiv hkey
      subst hdiv
      subst hkey
      constructor
      · intro d v n hd hv hn
        have hc := extractTarget_current doc _ d v n hd hv hn c2 m2 ht2
        subst hc
        rfl
      · intro hmiss
        have hmm := (extractTarget_missing doc _ hmiss).symm.trans ht2
        simp only [Except.ok.injEq, Prod.mk.injEq] at hmm
        obtain ⟨hc, hm⟩ := hmm
        cases hc
        cases hm
        exact ⟨rfl, rfl⟩
    · injection hmem with hdiv hkey
      subst hdiv
      subst hkey
      constructor
      · intro d v n hd hv hn
        have hc := extractTarget_current doc _ d v n hd hv hn c3 m3 ht3
        subst hc
        rfl
      · intro hmiss
        have hmm := (extractTarget_missing doc _ hmiss).symm.trans ht3
        simp only [Except.ok.injEq, Prod.mk.injEq] at hmm
        obtain ⟨hc, hm⟩ := hmm
        cases hc
        cases hm
        exact ⟨rfl, rfl⟩
  · intro doc hall hpeak
    have h1 := extractTarget_missing doc "total-Generation"
      (hall ("total-Generation", "current_demand") (by simp [target_ids]))
    have h2 := extractTarget_missing doc "next-Hour-Forecast"
      (hall ("next-Hour-Forecast", "next_hour_demand_forecast") (by simp [target_ids]))
    have h3 := extractTarget_missing doc "reserve"
      (hall ("reserve", "current_reserve") (by simp [target_ids]))
    have hp : extractPeaks doc =
        .ok [("peak_demand_forecast", none), ("peak_reserve_forecast", none)] := by
      unfold extractPeaks
      rw [hpeak]
    unfold scrape_luma_results
    simp only [target_ids, extractTargets]
    rw [h1, h2, h3, hp]
    rfl

/-- C4, witness: a document holding only the `total-Generation` element with
`data-value` 2750 yields exactly 2750 under `current_demand` and nulls for
the missing `current_reserve` pair; the empty document extracts with all
fields null and no error. -/
theorem C4_grid_extractor_witness :
    List.lookup "current_demand"
      [("current_demand", some (2750 : Int)), ("current_demand_max", none),
       ("next_hour_demand_forecast", none), ("next_hour_demand_forecast_max", none),
       ("current_reserve", none), ("current_reserve_max", none),
       ("peak_demand_forecast", none), ("peak_reserve_forecast", none)] = some (some 2750) ∧
    (List.lookup "current_reserve"
      [("current_demand", some (2750 : Int)), ("current_demand_max", none),
       ("next_hour_demand_forecast", none), ("next_hour_demand_forecast_max", none),
       ("current_reserve", none), ("current_reserve_max", none),
       ("peak_demand_forecast", none), ("peak_reserve_forecast", none)] = some none ∧
     List.lookup "current_reserve_max"
      [("current_demand", some (2750 : Int)), ("current_demand_max", none),
       ("next_hour_demand_forecast", none), ("next_hour_demand_forecast_max", none),
       ("current_reserve", none), ("current_reserve_max", none),
       ("peak_demand_forecast", none), ("peak_reserve_forecast", none)] = some none) ∧
    scrape_luma_results [] = .ok
      [("current_demand", none), ("current_demand_max", none),
       ("next_hour_demand_forecast", none), ("next_hour_demand_forecast_max", none),
       ("current_reserve", none), ("current_reserve_max", none),
       ("peak_demand_forecast", none), ("peak_reserve_forecast", none)] := by
  have hdoc : scrape_luma_results [⟨"total-Generation", some "2750", none, []⟩] = .ok
      [("current_demand", some (2750 : Int)), ("current_demand_max", none),
       ("next_hour_demand_forecast", none), ("next_hour_demand_forecast_max", none),
       ("current_reserve", none), ("current_reserve_max", none),
       ("peak_demand_forecast", none), ("peak_reserve_forecast", none)] := by rfl
  refine ⟨?_, ?_, ?_⟩
  · exact (C4_grid_extractor.1 [⟨"total-Generation", some "2750", none, []⟩] _ hdoc
      "total-Generation" "current_demand" (by simp [target_ids])).1
      ⟨"total-Generation", some "2750", none, []⟩ "2750" 2750 rfl rfl (by decide)
  · exact (C4_grid_extractor.1 [⟨"total-Generation", some "2750", none, []⟩] _ hdoc
      "reserve" "current_reserve" (by simp [target_ids])).2 rfl
  · exact C4_grid_extractor.2 [] (fun p _ => rfl) rfl

/-- Helper for C6: each digest byte is below 256. -/
theorem wordLEBytes_lt (w : Nat) : ∀ b ∈ wordLEBytes w, b < 256 := by
  intro b hb
  simp only [wordLEBytes, List.mem_cons, List.not_mem_nil, or_false] at hb
  rcases hb with rfl | rfl | rfl | rfl <;> exact Nat.mod_lt _ (by norm_num)

theorem md5Bytes_lt (msg : List Nat) : ∀ b ∈ md5Bytes msg, b < 256 := by
  intro b hb
  simp only [md5Bytes, List.mem_append] at hb
  rcases hb with ((hb | hb) | hb) | hb <;> exact wordLEBytes_lt _ _ hb

theorem md5Bytes_length (msg : List Nat) : (md5Bytes msg).length = 16 := by
  simp [md5Bytes, wordLEBytes]

/-- Helper for C6: a little-endian byte fold is bounded by 256 to the length. -/
theorem byteFold_lt : ∀ (l : List Nat), (∀ b ∈ l, b < 256) →
    l.foldr (fun b acc => b + 256 * acc) 0 < 256 ^ l.length := by
  intro l
  induction l with
  | nil => intro _; simp
  | cons b t ih =>
    intro h
    have hb : b < 256 := h b (by simp)
    have ht := ih (fun x hx => h x (by simp [hx]))
    simp only [List.foldr_cons, List.length_cons, pow_succ]
    generalize 256 ^ t.length = k at ht ⊢
    generalize t.foldr (fun b acc => b + 256 * acc) 0 = f at ht ⊢
    omega

/-- Helper for C6: the little-endian byte fold is injective on byte lists of
equal length. -/
theorem bytesNum_inj : ∀ (l1 l2 : List Nat), (∀ b ∈ l1, b < 256) → (∀ b ∈ l2, b < 256) →
    l1.length = l2.length →
    l1.foldr (fun b acc => b + 256 * acc) 0 = l2.foldr (fun b acc => b + 256 * acc) 0 →
    l1 = l2 := by
  intro l1
  induction l1 with
  | nil =>
    intro l2 _ _ hlen _
    cases l2 with
    | nil => rfl
    | cons b2 t2 => simp at hlen
  | cons b t ih =>
    intro l2 h1 h2 hlen hnum
    cases l2 with
    | nil => simp at hlen
    | cons b2 t2 =>
      simp only [List.foldr_cons] at hnum
      have hb : b < 256 := h1 b (by simp)
      have hb2 : b2 < 256 := h2 b2 (by simp)
      have hsplit : b = b2 ∧ t.foldr (fun b acc => b + 256 * acc) 0 =
          t2.foldr (fun b acc => b + 256 * acc) 0 := by
        constructor <;> omega
      rw [hsplit.1, ih t2 (fun x hx => h1 x (by simp [hx])) (fun x hx => h2 x (by simp [hx]))
        (by simpa using hlen) hsplit.2]

/-- Helper for C6: a 16-byte digest, read as a number, is below `2^128`. -/
theorem md5Nat_lt (msg : List Nat) : md5Nat msg < 2 ^ 128 := by
  have h := byteFold_lt (md5Bytes msg) (md5Bytes_lt msg)
  rw [md5Bytes_length, show (256 : Nat) ^ 16 = 2 ^ 128 by norm_num] at h
  exact h

/-- C6, counterexample (to the second half of the claim, by pigeonhole).  The
id is a 128-bit md5 digest of the joined triple, so the map from municipality
values (infinitely many strings) to ids (a finite digest space) cannot be
injective: there exist two triples that differ in exactly one field — the
municipality — yet share their id.  "Changing exactly one of the three fields
yields a different id" is therefore false of an md5-based key builder. -/
theorem md5Fin_val (l : List Nat) : (md5Fin l).val = md5Nat l :=
  Nat.mod_eq_of_lt (md5Nat_lt l)

theorem C6_counterexample :
    ¬ (∀ m m' s t : String, m ≠ m' → unique_id m s t ≠ unique_id m' s t) := by
  intro h
  obtain ⟨m, m', hne, heq⟩ :=
    Finite.exists_ne_map_eq_of_infinite
      (fun m : String => md5Fin (utf8Encode (outageKeyString m "" "")))
  have hnat : md5Nat (utf8Encode (outageKeyString m "" "")) =
      md5Nat (utf8Encode (outageKeyString m' "" "")) := by
    rw [← md5Fin_val, ← md5Fin_val]
    exact congrArg Fin.val heq
  have hbytes : md5Bytes (utf8Encode (outageKeyString m "" "")) =
      md5Bytes (utf8Encode (outageKeyString m' "" "")) :=
    bytesNum_inj _ _ (md5Bytes_lt _) (md5Bytes_lt _)
      (by rw [md5Bytes_length, md5Bytes_length]) hnat
  have hid : unique_id m "" "" = unique_id m' "" "" := by
    unfold unique_id md5Hexdigest
    rw [hbytes]
  exact h m m' "" "" hne hid

/-- Helper for C6: every produced record's id is the dedup key of its own
(municipality, sector, reported-text) triple. -/
theorem buildOutage_id {y : Nat} {cells : List String} {rec : OutageRecord}
    (h : buildOutage y cells = some rec) :
    rec.id = unique_id rec.municipality rec.sector rec.outage_reported_text := by
  rw [buildOutage] at h
  split at h
  · simp only [Option.some.injEq] at h
    subst h
    rfl
  · exact absurd h (by simp)

/-- Helper for C6: the characters of the joined triple. -/
theorem outageKeyString_data (m s t : String) :
    (outageKeyString m s t).data = m.data ++ '_' :: (s.data ++ '_' :: t.data) := by
  simp [outageKeyString, List.append_assoc]

/-- C6, amended.  The key builder is a pure function of the triple: any two
produced records agreeing on municipality, sector and raw reported-time text
have the same id, whatever the year or the other cells.  Changing exactly one
of the three fields always changes the string fed to the digest (the joined
triple is injective in each field separately); distinct ids then follow
except in the (existing, but practically unconstructible) case of an md5
collision, which `C6_counterexample` shows must occur somewhere. -/
theorem C6_dedup_amended :
    (∀ (y y' : Nat) (cells cells' : List String) (rec rec' : OutageRecord),
      buildOutage y cells = some rec → buildOutage y' cells' = some rec' →
      rec.municipality = rec'.municipality → rec.sector = rec'.sector →
      rec.outage_reported_text = rec'.outage_reported_text →
      rec.id = rec'.id) ∧
    (∀ m m' s s' t t' : String,
      (m ≠ m' → outageKeyString m s t ≠ outageKeyString m' s t) ∧
      (s ≠ s' → outageKeyString m s t ≠ outageKeyString m s' t) ∧
      (t ≠ t' → outageKeyString m s t ≠ outageKeyString m s t')) := by
  constructor
  · intro y y' cells cells' rec rec' h h' hm hs ht
    rw [buildOutage_id h, buildOutage_id h', hm, hs, ht]
  · intro m m' s s' t t'
    refine ⟨?_, ?_, ?_⟩
    · intro hne heq
      apply hne
      have hd := congrArg String.data heq
      rw [outageKeyString_data, outageKeyString_data] at hd
      exact String.ext (List.append_cancel_right hd)
    · intro hne heq
      apply hne
      have hd := congrArg String.data heq
      rw [outageKeyString_data, outageKeyString_data] at hd
      have h2 := List.append_cancel_left hd
      injection h2 with _ h3
      exact String.ext (List.append_cancel_right h3)
    · intro hne heq
      apply hne
      have hd := congrArg String.data heq
      rw [outageKeyString_data, outageKeyString_data] at hd
      have h2 := List.append_cancel_left hd
      injection h2 with _ h3
      have h4 := List.append_cancel_left h3
      injection h4 with _ h5
      exact String.ext h5

/-- C6, witness: two rows scraped in different years with different trailing
cells but the same identifying triple resolve to the same id; and changing
exactly one field of the triple changes the digest input. -/
theorem C6_dedup_amended_witness :
    (∃ rec rec' : OutageRecord,
      buildOutage 2024 ["a", "b", "c", "d", "e", "f", "g"] = some rec ∧
      buildOutage 2025 ["a", "b", "c", "x", "y", "z", "w"] = some rec' ∧
      rec.id = rec'.id) ∧
    outageKeyString "a" "b" "c" ≠ outageKeyString "aX" "b" "c" ∧
    outageKeyString "a" "b" "c" ≠ outageKeyString "a" "bX" "c" ∧
    outageKeyString "a" "b" "c" ≠ outageKeyString "a" "b" "cX" := by
  refine ⟨?_, ?_, ?_, ?_⟩
  · refine ⟨⟨unique_id "a" "b" "c", "a", "b", "c", none, "d", none, "e", "f", "g"⟩,
      ⟨unique_id "a" "b" "c", "a", "b", "c", none, "x", none, "y", "z", "w"⟩,
      by decide, by decide,
      C6_dedup_amended.1 2024 2025 ["a", "b", "c", "d", "e", "f", "g"]
        ["a", "b", "c", "x", "y", "z", "w"] _ _ (by decide) (by decide) rfl rfl rfl⟩
  · exact (C6_dedup_amended.2 "a" "aX" "b" "b" "c" "c").1 (by decide)
  · exact (C6_dedup_amended.2 "a" "a" "b" "bX" "c" "c").2.1 (by decide)
  · exact (C6_dedup_amended.2 "a" "a" "b" "b" "c" "cX").2.2 (by decide)
